import Mathlib

/-!
Shallow embedding of the DesiShield client (src/App.tsx, src/services/gemini.ts,
src/types.ts) and proofs of the specified properties of its analysis client,
session state machine, feedback ledger and CSV export.
-/

namespace DesiShield

set_option linter.unusedVariables false

/-- `Label` from src/types.ts: `'Safe' | 'Suspicious' | 'Phishing'`. -/
inductive Label where
  | Safe
  | Suspicious
  | Phishing
deriving DecidableEq, Repr

/-- String rendering of a `Label`, as it appears in a JS template literal. -/
def Label.render : Label → String
  | .Safe => "Safe"
  | .Suspicious => "Suspicious"
  | .Phishing => "Phishing"

/-- `AnalysisResult` from src/types.ts. -/
structure AnalysisResult where
  label : Label
  score : Int
  language : String
  reasoning : String
  triggeredRules : List String
  threatType : String
  highlightedTerms : List String
deriving DecidableEq, Repr

/-- `FeedbackLog` from src/types.ts. -/
structure FeedbackLog where
  timestamp : String
  message : String
  predictedLabel : Label
  userLabel : Label
  language : String
  score : Int
deriving DecidableEq, Repr

/-- A JSON value, used to model the classifier response text after `JSON.parse`. -/
inductive Json where
  | null
  | bool (b : Bool)
  | num (n : Int)
  | str (s : String)
  | arr (xs : List Json)
  | obj (fields : List (String × Json))

/-- Field lookup on a JSON object; `none` when absent or not an object. -/
def Json.getField (j : Json) (key : String) : Option Json :=
  match j with
  | .obj fields => fields.lookup key
  | _ => none

/-- Is this (optional) JSON value a string? -/
def isStrField : Option Json → Bool
  | some (.str _) => true
  | _ => false

/-- Is this (optional) JSON value a number? -/
def isNumField : Option Json → Bool
  | some (.num _) => true
  | _ => false

/-- Is this (optional) JSON value an array of strings? -/
def isStrArrField : Option Json → Bool
  | some (.arr xs) => xs.all fun x => match x with | .str _ => true | _ => false
  | _ => false

/-- Does this (optional) JSON value match the `label` enum constraint declared in
the request `responseSchema` of src/services/gemini.ts:
`enum: ['Safe', 'Suspicious', 'Phishing']`? -/
def labelEnumField : Option Json → Bool
  | some (.str s) => s == "Safe" || s == "Suspicious" || s == "Phishing"
  | _ => false

/-- The output schema declared in the `generateContent` request of
src/services/gemini.ts: object with `label` (string, three-value enum),
`score` (number), `language`, `reasoning`, `threatType` (strings),
`triggeredRules`, `highlightedTerms` (string arrays), all seven required.
Note the declared schema constrains `score` only to be a number; the 0-100
range appears only in the human-readable `description`. -/
def responseSchemaOk (j : Json) : Bool :=
  labelEnumField (j.getField "label") &&
  isNumField (j.getField "score") &&
  isStrField (j.getField "language") &&
  isStrField (j.getField "reasoning") &&
  isStrArrField (j.getField "triggeredRules") &&
  isStrField (j.getField "threatType") &&
  isStrArrField (j.getField "highlightedTerms")

/-- Does this (optional) JSON value hold a number in [0, 100]? -/
def scoreRangeField : Option Json → Bool
  | some (.num n) => decide (0 ≤ n) && decide (n ≤ 100)
  | _ => false

/-- Modelled from the spec: the AnalysisResult field constraints of spec section 3,
which add to the declared response schema that `score` is in [0, 100]. A response
object violating this (for example `score = 150` or `label = "Unknown"`) is one the
spec says the client must reject. -/
def specFieldConstraintsOk (j : Json) : Bool :=
  responseSchemaOk j && scoreRangeField (j.getField "score")

/-- Outcome of the external `generateContent` call, as seen by the client:
either a response whose `text` parses as the JSON value `j`, a response whose
`text` is not valid JSON (so `JSON.parse` throws), or a transport/service
failure carrying an error message. -/
inductive RawResponse where
  | json (j : Json)
  | notJson (text : String)
  | transportError (msg : String)

/-- `analyzeMessage` from src/services/gemini.ts, staged over the external call
outcome. The code throws when `process.env.API_KEY` is falsy (absent or empty),
propagates transport failures, throws a `SyntaxError` when `response.text` is not
valid JSON, and otherwise returns `JSON.parse(response.text) as AnalysisResult`:
the parsed JSON value is returned unchanged, the `as` cast performing no runtime
check. -/
def analyzeMessage (apiKey : String) (text : String) (resp : RawResponse) :
    Except String Json :=
  if apiKey = "" then
    Except.error "API Key is missing. Please check your environment configuration."
  else
    match resp with
    | .transportError m => Except.error m
    | .notJson _ => Except.error "Unexpected token in JSON"
    | .json j => Except.ok j

/-- `Screen` from src/App.tsx: `'home' | 'text-scan' | 'voice-scan'`. -/
inductive Screen where
  | home
  | textScan
  | voiceScan
deriving DecidableEq, Repr

/-- The React state of the `App` component in src/App.tsx: `screen`, `inputText`,
`isAnalyzing`, `result`, `logs`, `isRecording`, `error`, plus `recognition`
recording whether `recognitionRef.current` is non-null (the effect on mount sets
it exactly when the browser exposes a SpeechRecognition constructor). `darkMode`
is omitted: purely presentational, read by no handler. -/
structure SessionState where
  screen : Screen
  inputText : String
  isAnalyzing : Bool
  result : Option AnalysisResult
  logs : List FeedbackLog
  isRecording : Bool
  error : Option String
  recognition : Bool
deriving DecidableEq, Repr

/-- Outcome of the synchronous prefix of `runAnalysis` (src/App.tsx lines 70-75):
either the early `return` on blank content (state unchanged, no request issued),
or the state after `setIsAnalyzing(true); setError(null)` together with the
content handed to `analyzeMessage`. -/
inductive StartOutcome where
  | rejected (s : SessionState)
  | started (s : SessionState) (content : String)
deriving DecidableEq, Repr

/-- The state carried by a `StartOutcome`. -/
def StartOutcome.state : StartOutcome → SessionState
  | .rejected s => s
  | .started s _ => s

/-- JS `String.prototype.trim()` over the character list: drop leading and
trailing whitespace characters. -/
def jsTrimList (cs : List Char) : List Char :=
  ((cs.dropWhile Char.isWhitespace).reverse.dropWhile Char.isWhitespace).reverse

/-- JS `String.prototype.trim()`: the whitespace-stripping used by the blank-input
checks of src/App.tsx. -/
def jsTrim (s : String) : String :=
  String.mk (jsTrimList s.data)

/-- `const finalContent = textToAnalyze || inputText` from src/App.tsx line 71:
an absent argument, and also an empty-string argument (falsy in JS), fall back to
the current input field. -/
def effectiveContent (textToAnalyze : Option String) (s : SessionState) : String :=
  match textToAnalyze with
  | some t => if t = "" then s.inputText else t
  | none => s.inputText

/-- The synchronous prefix of `runAnalysis` from src/App.tsx lines 70-75:
`if (!finalContent.trim()) return;` then `setIsAnalyzing(true); setError(null)`
and the `analyzeMessage(finalContent)` call is issued. There is no check of
`isAnalyzing` in the function body. -/
def runAnalysisStart (textToAnalyze : Option String) (s : SessionState) :
    StartOutcome :=
  if jsTrim (effectiveContent textToAnalyze s) = "" then StartOutcome.rejected s
  else
    StartOutcome.started { s with isAnalyzing := true, error := none }
      (effectiveContent textToAnalyze s)

/-- Resolution of the awaited `analyzeMessage` call: success carrying the decoded
result, or a thrown error carrying `err.message`. -/
inductive AnalysisOutcome where
  | ok (r : AnalysisResult)
  | fail (msg : String)

/-- The continuation of `runAnalysis` from src/App.tsx lines 76-83, applied when
the awaited call resolves: on success `setResult(data)`, on failure
`setError(err.message || "An error occurred during analysis.")` (the default
message stands in when `err.message` is falsy), and in both cases the `finally`
block runs `setIsAnalyzing(false)`. -/
def runAnalysisFinish (o : AnalysisOutcome) (s : SessionState) : SessionState :=
  match o with
  | .ok r => { s with result := some r, isAnalyzing := false }
  | .fail msg =>
      { s with
        error := some (if msg = "" then "An error occurred during analysis." else msg),
        isAnalyzing := false }

/-- The `FeedbackLog` object literal built inside `handleFeedback`
(src/App.tsx lines 88-95): timestamp from the clock, `message: inputText`
(the current editable field), and label/language/score copied from `result`. -/
def mkFeedbackEntry (now : String) (s : SessionState) (r : AnalysisResult)
    (userLabel : Label) : FeedbackLog :=
  { timestamp := now
    message := s.inputText
    predictedLabel := r.label
    userLabel := userLabel
    language := r.language
    score := r.score }

/-- `handleFeedback` from src/App.tsx lines 86-98: early return when `result` is
null, otherwise `setLogs(prev => [newLog, ...prev])`, prepending the new entry. -/
def handleFeedback (userLabel : Label) (now : String) (s : SessionState) :
    SessionState :=
  match s.result with
  | none => s
  | some r => { s with logs := mkFeedbackEntry now s r userLabel :: s.logs }

/-- `handleStopRecording` from src/App.tsx lines 65-68: `setIsRecording(false)`
then `recognitionRef.current.stop()`. When no recognition object exists
(`recognitionRef.current` is null) the member access throws a TypeError, modelled
as `none`; otherwise the Web Speech API `stop()` on an idle recognizer does
nothing and the handler completes. -/
def handleStopRecording (s : SessionState) : Option SessionState :=
  if s.recognition then some { s with isRecording := false } else none

/-- The back-arrow handler from src/App.tsx lines 196-201:
`setScreen('home'); setInputText(''); setResult(null); setError(null)`. -/
def goHome (s : SessionState) : SessionState :=
  { s with screen := Screen.home, inputText := "", result := none, error := none }

/-- The textarea `onChange` handler from src/App.tsx line 528:
`setInputText(e.target.value)`. -/
def setInput (t : String) (s : SessionState) : SessionState :=
  { s with inputText := t }

/-- The `disabled` condition of the Analyze buttons (src/App.tsx lines 558 and
995): `isAnalyzing || !inputText.trim()`. -/
def analyzeButtonDisabled (s : SessionState) : Bool :=
  s.isAnalyzing || jsTrim s.inputText == ""

/-- A demo-case button click from src/App.tsx lines 581-584:
`setInputText(demo.text); runAnalysis(demo.text)`. These buttons carry no
`disabled` attribute. -/
def demoCaseClick (demoText : String) (s : SessionState) : StartOutcome :=
  runAnalysisStart (some demoText) (setInput demoText s)

/-- `message.replace(/"/g, '""')` from `exportCSV` (src/App.tsx line 104), on the
character list of the message: every double-quote character is doubled. -/
def escapeQuotesList : List Char → List Char
  | [] => []
  | c :: cs =>
      if c = '"' then '"' :: '"' :: escapeQuotesList cs
      else c :: escapeQuotesList cs

/-- String form of `escapeQuotesList`. -/
def escapeQuotes (m : String) : String :=
  String.mk (escapeQuotesList m.data)

/-- Modelled from the spec: standard CSV quote-unescaping of a quoted field body
(each doubled double-quote collapses to a single one), the consumer-side parse
the spec's round-trip property refers to. Not part of this repository. -/
def csvUnescapeList : List Char → List Char
  | [] => []
  | [c] => [c]
  | c :: d :: cs =>
      if c = '"' then
        if d = '"' then '"' :: csvUnescapeList cs
        else c :: csvUnescapeList (d :: cs)
      else c :: csvUnescapeList (d :: cs)

/-- String form of `csvUnescapeList`. -/
def csvUnescape (m : String) : String :=
  String.mk (csvUnescapeList m.data)

/-- One row of the CSV template literal in `exportCSV` (src/App.tsx line 104):
timestamp, escaped message, predicted label, user label and language each wrapped
in double quotes, then the unquoted score. -/
def csvRow (l : FeedbackLog) : String :=
  "\"" ++ l.timestamp ++ "\",\"" ++ escapeQuotes l.message ++ "\",\"" ++
  l.predictedLabel.render ++ "\",\"" ++ l.userLabel.render ++ "\",\"" ++
  l.language ++ "\"," ++ toString l.score

/-- The header string of `exportCSV` (src/App.tsx line 102), trailing newline
included. -/
def csvHeaders : String := "Timestamp,Message,Predicted,UserLabel,Language,Score\n"

/-- `exportCSV` from src/App.tsx lines 100-112, up to the produced blob content:
early return (`none`) when the ledger is empty, otherwise the header string
followed by the rows in ledger order joined with newlines. -/
def exportCSV (logs : List FeedbackLog) : Option String :=
  if logs.length = 0 then none
  else some (csvHeaders ++ String.intercalate "\n" (logs.map csvRow))

/-- Does the synchronous prefix of `runAnalysis` issue a classifier request? -/
def StartOutcome.isStarted : StartOutcome → Bool
  | .started _ _ => true
  | .rejected _ => false

/-- A benign analysis result. -/
def resultA : AnalysisResult :=
  { label := Label.Safe
    score := 10
    language := "English"
    reasoning := "benign content"
    triggeredRules := []
    threatType := "None"
    highlightedTerms := [] }

/-- A phishing analysis result, distinct from `resultA`. -/
def resultB : AnalysisResult :=
  { label := Label.Phishing
    score := 92
    language := "Hinglish"
    reasoning := "reward bait with a link"
    triggeredRules := ["Reward"]
    threatType := "Lottery Scam"
    highlightedTerms := ["lottery prize"] }

/-- A baseline session on the text-scan screen with a non-blank input, no result,
no error, empty ledger, dictation capability present, nothing in flight. -/
def baseState : SessionState :=
  { screen := Screen.textScan
    inputText := "text A"
    isAnalyzing := false
    result := none
    logs := []
    isRecording := false
    error := none
    recognition := true }

/-- The state reached from `baseState` by the synchronous prefix of `runAnalysis`. -/
def stateA1 : SessionState := { baseState with isAnalyzing := true, error := none }

/-- The state reached from `stateA1` by editing the input to "text B" and running
the synchronous prefix of a second `runAnalysis`. -/
def stateB1 : SessionState :=
  { setInput "text B" stateA1 with isAnalyzing := true, error := none }

/-- A session with an analysis already in flight and a leftover error message. -/
def busyState : SessionState :=
  { baseState with isAnalyzing := true, error := some "old error" }

/-- A session whose input field holds only whitespace. -/
def blankState : SessionState := { baseState with inputText := "   " }

/-- An idle session in an environment without the dictation capability:
no recognition object was ever created. -/
def idleNoRecState : SessionState := { baseState with recognition := false }

/-- A session holding the result `resultA`. -/
def withResultState : SessionState := { baseState with result := some resultA }

/-- A syntactically valid JSON classifier response that violates the
AnalysisResult field constraints: `label = "Unknown"` and `score = 150`. -/
def badJson : Json :=
  Json.obj
    [("label", Json.str "Unknown"), ("score", Json.num 150),
     ("language", Json.str "English"), ("reasoning", Json.str "off-contract"),
     ("triggeredRules", Json.arr []), ("threatType", Json.str "Scam"),
     ("highlightedTerms", Json.arr [])]

/-- A classifier response JSON satisfying every declared constraint. -/
def goodJson : Json :=
  Json.obj
    [("label", Json.str "Phishing"), ("score", Json.num 92),
     ("language", Json.str "Hinglish"), ("reasoning", Json.str "reward bait"),
     ("triggeredRules", Json.arr [Json.str "Reward"]),
     ("threatType", Json.str "Lottery Scam"),
     ("highlightedTerms", Json.arr [Json.str "lottery prize"])]

/-- Standard CSV quote-unescaping undoes the quote-doubling performed on the
message field, character list version. -/
theorem csvUnescapeList_escapeQuotesList (cs : List Char) :
    csvUnescapeList (escapeQuotesList cs) = cs := by
  induction cs with
  | nil => rfl
  | cons c cs ih =>
      by_cases h : c = '"'
      · subst h
        rw [escapeQuotesList, if_pos rfl, csvUnescapeList, if_pos rfl, if_pos rfl, ih]
      · rw [escapeQuotesList, if_neg h]
        cases hcs : escapeQuotesList cs with
        | nil =>
            rw [hcs] at ih
            have hnil : cs = [] := by simpa [csvUnescapeList] using ih.symm
            subst hnil
            rfl
        | cons d ds =>
            rw [hcs] at ih
            rw [csvUnescapeList, if_neg h, ih]

/-- Standard CSV quote-unescaping undoes the quote-doubling performed on the
message field. -/
theorem csvUnescape_escapeQuotes (m : String) : csvUnescape (escapeQuotes m) = m := by
  cases m with
  | mk data =>
      show String.mk (csvUnescapeList (escapeQuotesList data)) = String.mk data
      rw [csvUnescapeList_escapeQuotesList]

/-- Claim C10: navigating back to the home screen clears `currentInput`,
`currentResult` and `lastError`, but leaves the feedback ledger unchanged, in the
same order, and still available for CSV export. -/
theorem c10_go_home_preserves_ledger (s : SessionState) :
    (goHome s).logs = s.logs ∧
    (goHome s).screen = Screen.home ∧
    (goHome s).inputText = "" ∧
    (goHome s).result = none ∧
    (goHome s).error = none ∧
    exportCSV (goHome s).logs = exportCSV s.logs := by
  simp [goHome]

/-- Claim C1 counterexample: with an API key present, a classifier response that
is syntactically valid JSON with `label = "Unknown"` and `score = 150` — violating
the spec's AnalysisResult field constraints and even the enum of the request's
declared response schema — is returned successfully and unchanged by
`analyzeMessage`, not rejected with a schema-violation error. -/
theorem c1_schema_violation_returned :
    analyzeMessage "key" "some message" (RawResponse.json badJson) = Except.ok badJson ∧
    specFieldConstraintsOk badJson = false ∧
    responseSchemaOk badJson = false := by
  refine ⟨rfl, ?_, ?_⟩ <;> decide

/-- Claim C1 (amended): `analyzeMessage` performs no client-side validation of a
syntactically valid JSON classifier response: whenever the API key is present, the
parsed value is returned unchanged, whatever field constraints it violates — so
nothing is ever clamped or coerced, but a violating response is returned rather
than rejected; schema enforcement lives only in the request's `responseSchema`
sent to the classifier. -/
theorem c1_no_client_validation (apiKey text : String) (j : Json)
    (h : apiKey ≠ "") :
    analyzeMessage apiKey text (RawResponse.json j) = Except.ok j := by
  simp [analyzeMessage, h]

/-- Witness for `c1_no_client_validation` at a concrete key and response. -/
theorem c1_no_client_validation_witness :
    analyzeMessage "key" "msg" (RawResponse.json goodJson) = Except.ok goodJson :=
  c1_no_client_validation "key" "msg" goodJson (by decide)

/-- Claim C3 counterexample: with an API key present and the whitespace-only
message `"   "`, `analyzeMessage` does not fail before the network call — its
outcome is determined by the classifier response (success on a JSON response,
the transport error on a failed call), so the external call is made. -/
theorem c3_blank_reaches_network :
    analyzeMessage "key" "   " (RawResponse.json goodJson) = Except.ok goodJson ∧
    analyzeMessage "key" "   " (RawResponse.transportError "network down")
      = Except.error "network down" :=
  ⟨rfl, rfl⟩

/-- Claim C3 (amended): `submit` (`runAnalysis`) with blank effective content —
whether the input field or a non-empty whitespace-only argument — returns early
with the session state unchanged and issues no classifier request; but the only
check `analyzeMessage` itself performs before the network call is the presence of
the API key (a blank message with a key present does reach the network). -/
theorem c3_blank_input_rejected (s : SessionState) (t text : String)
    (resp : RawResponse) (hs : jsTrim s.inputText = "") (ht : t ≠ "")
    (ht2 : jsTrim t = "") :
    runAnalysisStart none s = StartOutcome.rejected s ∧
    runAnalysisStart (some t) s = StartOutcome.rejected s ∧
    analyzeMessage "" text resp =
      Except.error "API Key is missing. Please check your environment configuration." := by
  refine ⟨?_, ?_, ?_⟩
  · simp [runAnalysisStart, effectiveContent, hs]
  · simp [runAnalysisStart, effectiveContent, ht, ht2]
  · simp [analyzeMessage]

/-- Witness for `c3_blank_input_rejected` on a whitespace-only field and a
whitespace-only argument. -/
theorem c3_blank_input_rejected_witness :
    runAnalysisStart none blankState = StartOutcome.rejected blankState ∧
    runAnalysisStart (some " ") blankState = StartOutcome.rejected blankState ∧
    analyzeMessage "" "msg" (RawResponse.json goodJson) =
      Except.error "API Key is missing. Please check your environment configuration." :=
  c3_blank_input_rejected blankState " " "msg" (RawResponse.json goodJson)
    (by decide) (by decide) (by decide)

/-- Claim C9 counterexample: in an environment where the dictation capability is
absent (no recognition object was ever created), calling `stopDictation`
(`handleStopRecording`) while Idle fails — `recognitionRef.current.stop()` throws
a TypeError on the null ref — instead of being a no-op. -/
theorem c9_stop_idle_throws_without_capability :
    idleNoRecState.isRecording = false ∧
    idleNoRecState.recognition = false ∧
    handleStopRecording idleNoRecState = none := by
  refine ⟨rfl, rfl, ?_⟩
  decide

/-- Claim C9 (amended): when a recognition object exists, `stopDictation`
(`handleStopRecording`) while Idle is a no-op leaving the whole session state —
`currentInput`, `lastError`, `isRecording` included — unchanged; only in an
environment without the dictation capability does the call throw instead. -/
theorem c9_stop_idle_noop (s : SessionState)
    (hrec : s.recognition = true) (hidle : s.isRecording = false) :
    handleStopRecording s = some s := by
  cases s with
  | mk screen inputText isAnalyzing result logs isRecording error recognition =>
      simp only at hrec hidle
      subst hrec hidle
      simp [handleStopRecording]

/-- Witness for `c9_stop_idle_noop` at the baseline idle state. -/
theorem c9_stop_idle_noop_witness :
    handleStopRecording baseState = some baseState :=
  c9_stop_idle_noop baseState rfl rfl

/-- Claim C2 counterexample: submit A starts, submit B starts on fresh input
before A's response arrives, B's response is applied (`currentResult = resultB`),
and then A's stale response arrives and overwrites it: the final `currentResult`
is A's outcome, not B's. The code carries no sequence tag and discards nothing. -/
theorem c2_stale_overwrite :
    runAnalysisStart none baseState = StartOutcome.started stateA1 "text A" ∧
    runAnalysisStart none (setInput "text B" stateA1)
      = StartOutcome.started stateB1 "text B" ∧
    (runAnalysisFinish (AnalysisOutcome.ok resultB) stateB1).result = some resultB ∧
    (runAnalysisFinish (AnalysisOutcome.ok resultA)
        (runAnalysisFinish (AnalysisOutcome.ok resultB) stateB1)).result
      = some resultA ∧
    resultA ≠ resultB := by
  refine ⟨by decide, by decide, rfl, rfl, by decide⟩

/-- Claim C2 (amended): `runAnalysis` applies each response to session state in
arrival order, unconditionally: after submits A then B both start, B's response
sets `currentResult` to B's outcome, and A's later-arriving stale response then
overwrites it with A's outcome — last-arrival-wins, not last-submit-wins. -/
theorem c2_last_arrival_wins (s0 s1 s2 : SessionState) (editB cA cB : String)
    (rA rB : AnalysisResult)
    (hA : runAnalysisStart none s0 = StartOutcome.started s1 cA)
    (hB : runAnalysisStart none (setInput editB s1) = StartOutcome.started s2 cB) :
    (runAnalysisFinish (AnalysisOutcome.ok rB) s2).result = some rB ∧
    (runAnalysisFinish (AnalysisOutcome.ok rA)
        (runAnalysisFinish (AnalysisOutcome.ok rB) s2)).result = some rA :=
  ⟨rfl, rfl⟩

/-- Witness for `c2_last_arrival_wins` on the concrete A-then-B trace. -/
theorem c2_last_arrival_wins_witness :
    (runAnalysisFinish (AnalysisOutcome.ok resultB) stateB1).result = some resultB ∧
    (runAnalysisFinish (AnalysisOutcome.ok resultA)
        (runAnalysisFinish (AnalysisOutcome.ok resultB) stateB1)).result
      = some resultA :=
  c2_last_arrival_wins baseState stateA1 stateB1 "text B" "text A" "text B"
    resultA resultB (by decide) (by decide)

/-- Claim C4 counterexample: with an analysis already in flight
(`isAnalyzing = true`) and a leftover error, a further `runAnalysis` call is not
rejected: it starts a new analysis and changes session state (the error is
cleared). -/
theorem c4_busy_submit_not_rejected :
    busyState.isAnalyzing = true ∧
    runAnalysisStart (some "hello") busyState =
      StartOutcome.started { busyState with isAnalyzing := true, error := none }
        "hello" ∧
    StartOutcome.state (runAnalysisStart (some "hello") busyState) ≠ busyState := by
  refine ⟨rfl, by decide, by decide⟩

/-- Claim C4 (amended): the mutual exclusion is enforced only at the UI layer —
the Analyze button is disabled while `isAnalyzing` is true — but `runAnalysis`
itself performs no `isAnalyzing` check: a direct call with non-blank text (for
example from a demo-case button, which is never disabled) while an analysis is in
flight starts a second analysis and clears the error. -/
theorem c4_guard_is_ui_only (s : SessionState) (t : String)
    (h : s.isAnalyzing = true) (ht0 : t ≠ "") (ht : jsTrim t ≠ "") :
    analyzeButtonDisabled s = true ∧
    runAnalysisStart (some t) s =
      StartOutcome.started { s with isAnalyzing := true, error := none } t := by
  constructor
  · simp [analyzeButtonDisabled, h]
  · simp [runAnalysisStart, effectiveContent, ht0, ht]

/-- Witness for `c4_guard_is_ui_only` at the busy state. -/
theorem c4_guard_is_ui_only_witness :
    analyzeButtonDisabled busyState = true ∧
    runAnalysisStart (some "hello") busyState =
      StartOutcome.started { busyState with isAnalyzing := true, error := none }
        "hello" :=
  c4_guard_is_ui_only busyState "hello" rfl (by decide) (by decide)

/-- Claim C5: `handleFeedback` prepends each new entry (most-recent-first), and
after result R1, feedback F1, a new analysis R2, and feedback F2 the ledger is
exactly [F2, F1], with F1's stored message and score unchanged by the later
analysis. -/
theorem c5_ledger_most_recent_first (s0 : SessionState) (r1 r2 : AnalysisResult)
    (ul1 ul2 : Label) (t1 t2 : String)
    (h0 : s0.logs = []) (hblank : jsTrim s0.inputText ≠ "") :
    (handleFeedback ul1 t1 (runAnalysisFinish (AnalysisOutcome.ok r1) s0)).logs
      = mkFeedbackEntry t1 (runAnalysisFinish (AnalysisOutcome.ok r1) s0) r1 ul1
          :: (runAnalysisFinish (AnalysisOutcome.ok r1) s0).logs ∧
    (let sR1 := runAnalysisFinish (AnalysisOutcome.ok r1) s0
     let sF1 := handleFeedback ul1 t1 sR1
     let sR2 := runAnalysisFinish (AnalysisOutcome.ok r2)
                  (StartOutcome.state (runAnalysisStart none sF1))
     let sF2 := handleFeedback ul2 t2 sR2
     sF2.logs = [mkFeedbackEntry t2 sR2 r2 ul2, mkFeedbackEntry t1 sR1 r1 ul1] ∧
     (mkFeedbackEntry t1 sR1 r1 ul1).message = s0.inputText ∧
     (mkFeedbackEntry t1 sR1 r1 ul1).score = r1.score) := by
  constructor
  · simp [handleFeedback, runAnalysisFinish]
  · simp [handleFeedback, runAnalysisFinish, runAnalysisStart, effectiveContent,
      StartOutcome.state, mkFeedbackEntry, h0, hblank]

/-- Witness for `c5_ledger_most_recent_first` on the concrete R1-F1-R2-F2 trace. -/
theorem c5_ledger_most_recent_first_witness :
    (handleFeedback Label.Phishing "t1"
        (runAnalysisFinish (AnalysisOutcome.ok resultA) baseState)).logs
      = mkFeedbackEntry "t1" (runAnalysisFinish (AnalysisOutcome.ok resultA) baseState)
          resultA Label.Phishing
          :: (runAnalysisFinish (AnalysisOutcome.ok resultA) baseState).logs ∧
    (let sR1 := runAnalysisFinish (AnalysisOutcome.ok resultA) baseState
     let sF1 := handleFeedback Label.Phishing "t1" sR1
     let sR2 := runAnalysisFinish (AnalysisOutcome.ok resultB)
                  (StartOutcome.state (runAnalysisStart none sF1))
     let sF2 := handleFeedback Label.Safe "t2" sR2
     sF2.logs = [mkFeedbackEntry "t2" sR2 resultB Label.Safe,
                 mkFeedbackEntry "t1" sR1 resultA Label.Phishing] ∧
     (mkFeedbackEntry "t1" sR1 resultA Label.Phishing).message = baseState.inputText ∧
     (mkFeedbackEntry "t1" sR1 resultA Label.Phishing).score = resultA.score) :=
  c5_ledger_most_recent_first baseState resultA resultB Label.Phishing Label.Safe
    "t1" "t2" rfl (by decide)

/-- Claim C6: `exportCSV` is a no-op on an empty ledger, and on a non-empty ledger
produces exactly the header row followed by one row per entry in ledger
(most-recent-first) order, every field except the unquoted numeric `Score`
double-quoted, with embedded double quotes in the message field escaped by
doubling; the message `He said "urgent now"` renders as
`"He said ""urgent now"""`, and standard CSV quote-unescaping recovers every
original message exactly. -/
theorem c6_export_csv_format (logs : List FeedbackLog) (l : FeedbackLog)
    (m : String) (h : logs ≠ []) :
    exportCSV ([] : List FeedbackLog) = none ∧
    exportCSV logs =
      some ("Timestamp,Message,Predicted,UserLabel,Language,Score\n" ++
        String.intercalate "\n" (logs.map csvRow)) ∧
    csvRow l =
      "\"" ++ l.timestamp ++ "\",\"" ++ escapeQuotes l.message ++ "\",\"" ++
      l.predictedLabel.render ++ "\",\"" ++ l.userLabel.render ++ "\",\"" ++
      l.language ++ "\"," ++ toString l.score ∧
    csvUnescape (escapeQuotes m) = m ∧
    escapeQuotes "He said \"urgent now\"" = "He said \"\"urgent now\"\"" ∧
    "\"" ++ escapeQuotes "He said \"urgent now\"" ++ "\""
      = "\"He said \"\"urgent now\"\"\"" := by
  refine ⟨rfl, ?_, rfl, csvUnescape_escapeQuotes m, by decide, by decide⟩
  simp [exportCSV, csvHeaders, h]

/-- Witness for `c6_export_csv_format` at a concrete one-entry ledger. -/
theorem c6_export_csv_format_witness :
    exportCSV ([] : List FeedbackLog) = none ∧
    exportCSV [mkFeedbackEntry "t1" withResultState resultA Label.Safe] =
      some ("Timestamp,Message,Predicted,UserLabel,Language,Score\n" ++
        String.intercalate "\n"
          ([mkFeedbackEntry "t1" withResultState resultA Label.Safe].map csvRow)) ∧
    csvRow (mkFeedbackEntry "t1" withResultState resultA Label.Safe) =
      "\"" ++ (mkFeedbackEntry "t1" withResultState resultA Label.Safe).timestamp
      ++ "\",\""
      ++ escapeQuotes (mkFeedbackEntry "t1" withResultState resultA Label.Safe).message
      ++ "\",\""
      ++ (mkFeedbackEntry "t1" withResultState resultA Label.Safe).predictedLabel.render
      ++ "\",\""
      ++ (mkFeedbackEntry "t1" withResultState resultA Label.Safe).userLabel.render
      ++ "\",\""
      ++ (mkFeedbackEntry "t1" withResultState resultA Label.Safe).language
      ++ "\","
      ++ toString (mkFeedbackEntry "t1" withResultState resultA Label.Safe).score ∧
    csvUnescape (escapeQuotes "He said \"urgent now\"") = "He said \"urgent now\"" ∧
    escapeQuotes "He said \"urgent now\"" = "He said \"\"urgent now\"\"" ∧
    "\"" ++ escapeQuotes "He said \"urgent now\"" ++ "\""
      = "\"He said \"\"urgent now\"\"\"" :=
  c6_export_csv_format [mkFeedbackEntry "t1" withResultState resultA Label.Safe]
    (mkFeedbackEntry "t1" withResultState resultA Label.Safe)
    "He said \"urgent now\"" (by decide)

/-- Claim C7 counterexample: the text "text A" is analyzed, the user then edits
the input field to "text B edited", and feedback is recorded: the created entry's
`message` is the edited field content "text B edited", not the analyzed text
"text A". -/
theorem c7_feedback_logs_edited_text :
    runAnalysisStart none baseState = StartOutcome.started stateA1 "text A" ∧
    (handleFeedback Label.Phishing "1/1/2026, 10:00:00 AM"
        (setInput "text B edited"
          (runAnalysisFinish (AnalysisOutcome.ok resultA) stateA1))).logs =
      [{ timestamp := "1/1/2026, 10:00:00 AM", message := "text B edited",
         predictedLabel := Label.Safe, userLabel := Label.Phishing,
         language := "English", score := 10 }] ∧
    ("text B edited" : String) ≠ "text A" := by
  refine ⟨by decide, by decide, by decide⟩

/-- Claim C7 (amended): `handleFeedback` is a no-op when `currentResult` is null;
otherwise the created entry's `message` equals the current content of the editable
input field at feedback time — which coincides with the analyzed text only when
the field has not been edited since the analysis was submitted. -/
theorem c7_feedback_uses_current_field (ul : Label) (now : String)
    (s s' : SessionState) (r : AnalysisResult)
    (h : s.result = some r) (h' : s'.result = none) :
    (handleFeedback ul now s).logs = mkFeedbackEntry now s r ul :: s.logs ∧
    (mkFeedbackEntry now s r ul).message = s.inputText ∧
    handleFeedback ul now s' = s' := by
  refine ⟨?_, rfl, ?_⟩
  · simp [handleFeedback, h]
  · simp [handleFeedback, h']

/-- Witness for `c7_feedback_uses_current_field` at states with and without a
result. -/
theorem c7_feedback_uses_current_field_witness :
    (handleFeedback Label.Safe "now" withResultState).logs
      = mkFeedbackEntry "now" withResultState resultA Label.Safe
          :: withResultState.logs ∧
    (mkFeedbackEntry "now" withResultState resultA Label.Safe).message
      = withResultState.inputText ∧
    handleFeedback Label.Safe "now" baseState = baseState :=
  c7_feedback_uses_current_field Label.Safe "now" withResultState baseState resultA
    rfl rfl

/-- Claim C8: a started submit clears the previous error at its start whatever its
eventual outcome, and when the analysis call fails with a non-empty message the
session ends with `lastError` set to that message, `isAnalyzing` reset to false,
and `currentResult` unchanged from before the submit. -/
theorem c8_failure_frame (s s' : SessionState) (t : Option String) (c msg : String)
    (hstart : runAnalysisStart t s = StartOutcome.started s' c)
    (hmsg : msg ≠ "") :
    s'.error = none ∧ s'.result = s.result ∧ s'.logs = s.logs ∧
    (runAnalysisFinish (AnalysisOutcome.fail msg) s').error = some msg ∧
    (runAnalysisFinish (AnalysisOutcome.fail msg) s').isAnalyzing = false ∧
    (runAnalysisFinish (AnalysisOutcome.fail msg) s').result = s.result := by
  unfold runAnalysisStart at hstart
  split at hstart
  · simp at hstart
  · injection hstart with h1 h2
    subst h1
    refine ⟨rfl, rfl, rfl, ?_, rfl, rfl⟩
    simp [runAnalysisFinish, hmsg]

/-- Witness for `c8_failure_frame` on a concrete failed submit. -/
theorem c8_failure_frame_witness :
    stateA1.error = none ∧ stateA1.result = baseState.result ∧
    stateA1.logs = baseState.logs ∧
    (runAnalysisFinish (AnalysisOutcome.fail "network down") stateA1).error
      = some "network down" ∧
    (runAnalysisFinish (AnalysisOutcome.fail "network down") stateA1).isAnalyzing
      = false ∧
    (runAnalysisFinish (AnalysisOutcome.fail "network down") stateA1).result
      = baseState.result :=
  c8_failure_frame baseState stateA1 none "text A" "network down" (by decide)
    (by decide)

end DesiShield
